import Mathlib

/-!
Verification of the fractale workflow / workload orchestration engine.

The definitions below are a shallow embedding of the Python source:

* `fractale/agent/steps.py`               (`Step`)
* `fractale/agent/context.py`             (`Context.cleanup`)
* `fractale/agent/kubernetes/job/agent.py` (`KubernetesJobAgent`:
  `finish_deploy`, `optimize`, `scale`, `check`, `update_manifest`)
* `fractale/agent/scaling/agent.py`       (`ScalingAgent.run`)

External collaborators (the Kubernetes cluster, the Gemini oracle, the
interactive user) are modelled as explicit parameters / traces of
responses.  Python exceptions are modelled with `Except PyErr`.
-/

namespace Fractale

/-- Python-like dynamic values held in context dictionaries. -/
inductive PyVal where
  | none
  | str (s : String)
  | int (n : Int)
  | bool (b : Bool)
  | list (xs : List PyVal)
  | dict (entries : List (String × PyVal))
deriving Repr

mutual

/-- Python `==` on the values we model. -/
def PyVal.beq : PyVal → PyVal → Bool
  | .none, .none => true
  | .str a, .str b => a == b
  | .int a, .int b => a == b
  | .bool a, .bool b => a == b
  | .list xs, .list ys => beqValList xs ys
  | .dict a, .dict b => beqEntryList a b
  | _, _ => false

/-- Elementwise python `==` on lists of values. -/
def beqValList : List PyVal → List PyVal → Bool
  | [], [] => true
  | x :: xs, y :: ys => PyVal.beq x y && beqValList xs ys
  | _, _ => false

/-- Elementwise python `==` on dictionary entry lists. -/
def beqEntryList : List (String × PyVal) → List (String × PyVal) → Bool
  | [], [] => true
  | (k, v) :: xs, (k', v') :: ys => k == k' && PyVal.beq v v' && beqEntryList xs ys
  | _, _ => false

end

instance : BEq PyVal := ⟨PyVal.beq⟩

/-- Python exceptions that the embedded code can raise. -/
inductive PyErr where
  | keyError (k : String)
  | attrError (name : String)
  | typeError (msg : String)
  | indexError
deriving Repr, DecidableEq

/-- Python truthiness for the values we model (`None`, `False`, `0`, `""`,
`[]` and `\x7b\x7d` are falsy). -/
def PyVal.truthy : PyVal → Bool
  | .none => false
  | .str s => !s.isEmpty
  | .int n => n != 0
  | .bool b => b
  | .list xs => !xs.isEmpty
  | .dict es => !es.isEmpty

/-- First binding of a key in an association list (python dicts have unique
keys, so this is the dict lookup). -/
def findEntry? : List (String × PyVal) → String → Option PyVal
  | [], _ => Option.none
  | (k, v) :: rest, key => if k = key then Option.some v else findEntry? rest key

/-- `d.get(k)` on a python dict: `None` when the key is absent. -/
def dictGet (es : List (String × PyVal)) (k : String) : PyVal :=
  match findEntry? es k with
  | Option.none => PyVal.none
  | Option.some v => v

/-- `d[k]` on a python dict: `KeyError` when the key is absent. -/
def dictItem (es : List (String × PyVal)) (k : String) : Except PyErr PyVal :=
  match findEntry? es k with
  | Option.none => Except.error (PyErr.keyError k)
  | Option.some v => Except.ok v

/-- Set `d[k] = v` on an association list (replace first binding or append). -/
def dictSet : List (String × PyVal) → String → PyVal → List (String × PyVal)
  | [], k, v => [(k, v)]
  | (k', v') :: rest, k, v =>
      if k' = k then (k, v) :: rest else (k', v') :: dictSet rest k v

/-! ## `fractale/agent/steps.py` — the `Step` record

A step wraps a plain dictionary.  `Step.get(name, default)` is
`self.step.get(name) or default`, so a *falsy* stored value (for example a
declared `attempts` of `0`) also yields the default. -/

/-- A plan step: the raw dictionary entries behind `Step.step`. -/
structure Step where
  agentEntry : Option String
  attemptsEntry : Option Int
  descriptionEntry : Option String
deriving Repr, DecidableEq

/-- `Step.attempts` — `self.get("attempts")`, i.e.
`self.step.get("attempts") or None`: the `or` collapses a stored `0` to
`None`. -/
def Step.attempts (s : Step) : Option Int :=
  match s.attemptsEntry with
  | Option.none => Option.none
  | Option.some v => if v = 0 then Option.none else Option.some v

/-- `Step.reached_maximum_attempts(attempts)` from `steps.py` lines 23–31:

```
if self.attempts is None: return False
if self.attempts > attempts: return True
return False
``` -/
def Step.reached_maximum_attempts (s : Step) (attempts : Int) : Bool :=
  match s.attempts with
  | Option.none => false
  | Option.some m => decide (m > attempts)

/-! ## `fractale/agent/context.py` — `Context.cleanup`

`Context` is a `UserDict`; attribute access on a missing attribute falls
back to the dictionary keys and raises `AttributeError` when the key is
absent as well.  `cleanup` reads `self.context.get("keep")`, i.e. the
attribute named `context`, *not* the context itself. -/

/-- The `Context` object: its dictionary `data` plus the backing
workspace directory. -/
structure Ctx where
  data : List (String × PyVal)
  workspace : String
deriving Repr

/-- Attribute lookup on `Context` for a name that is not a real python
attribute: `__getattr__` returns `self.data[name]` when present and raises
`AttributeError` otherwise. -/
def Ctx.getattrKey (c : Ctx) (name : String) : Except PyErr PyVal :=
  match findEntry? c.data name with
  | Option.none => Except.error (PyErr.attrError name)
  | Option.some v => Except.ok v

/-- `Context.cleanup` (`context.py` lines 152–160):

```
if self.context.get("keep") is None:
    shutil.rmtree(self.workspace, ignore_errors=True)
```

The returned boolean records whether the workspace directory was removed.
`self.context` resolves through `__getattr__` to the dictionary entry
named `context`. -/
def Ctx.cleanup (c : Ctx) : Except PyErr Bool := do
  let v ← c.getattrKey "context"
  match v with
  | PyVal.dict d =>
      match findEntry? d "keep" with
      | Option.none => pure true
      | Option.some PyVal.none => pure true
      | Option.some _ => pure false
  | _ => Except.error (PyErr.attrError "get")

/-! ### Claim C1 -/

/-- C1: the claim says `Step.reached_maximum_attempts(a)` returns `True`
exactly when the externally tracked count `a` has reached or exceeded the
declared maximum `m`.  The code compares in the wrong direction
(`self.attempts > attempts`): with a declared maximum of `3` it returns
`True` at `a = 0` (so the orchestrator aborts the step before its first
run) and `False` at `a = 5` (an exhausted budget is never detected). -/
theorem C1_reached_maximum_attempts_inverted :
    (Step.mk (Option.some "build") (Option.some 3) Option.none).reached_maximum_attempts 0 = true
    ∧ (Step.mk (Option.some "build") (Option.some 3) Option.none).reached_maximum_attempts 5
        = false := by
  constructor <;> rfl

/-! ### Claim C9 -/

/-- C9: the claim says `Context.cleanup` removes the workspace unless a
truthy `keep` flag is in the context.  The code instead reads
`self.context.get("keep")`: unless the dictionary happens to contain a key
literally named `context`, attribute lookup raises `AttributeError` and
the workspace is never removed — with or without `keep`. -/
theorem C9_cleanup_raises_attribute_error :
    (Ctx.mk [] "ws").cleanup = Except.error (PyErr.attrError "context")
    ∧ (Ctx.mk [("keep", PyVal.bool true)] "ws").cleanup
        = Except.error (PyErr.attrError "context") := by
  constructor <;> rfl

/-! ## `fractale/agent/kubernetes/job/agent.py` — shared context record

The agent reads and writes a fixed set of dynamic context keys.  We model
them as typed fields; `Option` marks keys that may be absent (attribute
access on an absent key raises).  The engine only ever stores python
booleans in `is_optimizing` / `return_to_manager`, so `Option Bool`
captures both the truthiness test (`context.get("is_optimizing")`) and the
identity test (`context.get("is_optimizing") is True`). -/

/-- The slice of the shared `Context` used by `KubernetesJobAgent`. -/
structure KCtx where
  result : String
  container : Option PyVal
  is_optimizing : Option Bool
  return_to_manager : Option Bool
  scale : Option PyVal
  sizes : List Int
  size : Int
  optimize : String
  optimize_result : List (String × PyVal)
  scaling_result : List (String × PyVal)
  scaling_attempts : List (Int × PyVal)
  was_timeout : Bool
  was_unsatisfiable : Bool
  requires : String
deriving Repr

/-- `context.container`: attribute access, `AttributeError` when unset. -/
def KCtx.containerAttr (c : KCtx) : Except PyErr PyVal :=
  match c.container with
  | Option.some v => Except.ok v
  | Option.none => Except.error (PyErr.attrError "container")

/-! ### Python dictionary / list access helpers used by the agent -/

/-- `v.get(k, dflt)`: only dictionaries have `.get`. -/
def pyGetD (v : PyVal) (k : String) (dflt : PyVal) : Except PyErr PyVal :=
  match v with
  | PyVal.dict es =>
      Except.ok (match findEntry? es k with
        | Option.some x => x
        | Option.none => dflt)
  | _ => Except.error (PyErr.attrError "get")

/-- `v.get(k)` (default `None`). -/
def pyGet (v : PyVal) (k : String) : Except PyErr PyVal :=
  pyGetD v k PyVal.none

/-- `v[k]` for a string key. -/
def pyItem (v : PyVal) (k : String) : Except PyErr PyVal :=
  match v with
  | PyVal.dict es => dictItem es k
  | _ => Except.error (PyErr.typeError "object is not subscriptable")

/-- `v[0]`. -/
def pyIndexZero (v : PyVal) : Except PyErr PyVal :=
  match v with
  | PyVal.list (x :: _) => Except.ok x
  | PyVal.list [] => Except.error PyErr.indexError
  | PyVal.str s =>
      if s.isEmpty then Except.error PyErr.indexError
      else Except.ok (PyVal.str (String.singleton (s.get 0)))
  | _ => Except.error (PyErr.typeError "object is not subscriptable")

/-- `v[k] = x`. -/
def pySetKey (v : PyVal) (k : String) (x : PyVal) : Except PyErr PyVal :=
  match v with
  | PyVal.dict es => Except.ok (PyVal.dict (dictSet es k x))
  | _ => Except.error (PyErr.typeError "object does not support item assignment")

/-- Replace the head of a python list value. -/
def pyListSetHead (v : PyVal) (x : PyVal) : PyVal :=
  match v with
  | PyVal.list (_ :: rest) => PyVal.list (x :: rest)
  | v => v

/-- Functional update of a nested dictionary along a path of keys; when the
path does not consist of dictionaries the value is unchanged. -/
def setAtPath : List (String × PyVal) → List String → String → PyVal → List (String × PyVal)
  | jd, [], k, v => dictSet jd k v
  | jd, p :: ps, k, v =>
      match findEntry? jd p with
      | Option.some (PyVal.dict d) => dictSet jd p (PyVal.dict (setAtPath d ps k v))
      | _ => jd

/-! ### `KubernetesJobAgent.get_containers` and `check` -/

/-- `get_containers` (agent.py lines 516–517):
`job_data.get("spec", \x7b\x7d).get("template", \x7b\x7d).get("spec", \x7b\x7d).get("containers") or []`.
The trailing `or []` maps any falsy result to an empty list but keeps a
truthy non-list value as is. -/
def get_containers (jd : List (String × PyVal)) : Except PyErr PyVal := do
  let a := dictGetD jd "spec"
  let b ← pyGetD a "template" (PyVal.dict [])
  let c ← pyGetD b "spec" (PyVal.dict [])
  let d ← pyGet c "containers"
  pure (if d.truthy then d else PyVal.list [])
where
  /-- `job_data.get("spec", \x7b\x7d)` on the top-level dictionary. -/
  dictGetD (jd : List (String × PyVal)) (k : String) : PyVal :=
    match findEntry? jd k with
    | Option.some x => x
    | Option.none => PyVal.dict []

/-- The in-place effect of `containers[0]["image"] = ...` on `job_data`:
the list returned by `get_containers` aliases the nested
`spec.template.spec.containers` value whenever that chain of dictionaries
actually exists (when any level is missing, `get_containers` built the
list from fresh defaults and the mutation does not touch `job_data`). -/
def writeContainers (jd : List (String × PyVal)) (cs : PyVal) : List (String × PyVal) :=
  match findEntry? jd "spec" with
  | Option.some (PyVal.dict s) =>
      (match findEntry? s "template" with
        | Option.some (PyVal.dict t) =>
            (match findEntry? t "spec" with
              | Option.some (PyVal.dict s2) =>
                  (match findEntry? s2 "containers" with
                    | Option.some _ => setAtPath jd ["spec", "template", "spec"] "containers" cs
                    | Option.none => jd)
              | _ => jd)
        | _ => jd)
  | _ => jd

/-- `KubernetesJobAgent.check` (agent.py lines 523–536):

```
containers = self.get_containers(job_data)
if not containers:
    return job_data, 1, "Generated YAML is missing required '.containers' list field."
found_image = containers[0].get("image")
if found_image != context.container:
    containers[0]["image"] = context.container
    job_data["spec"]['template"']["spec"]["containers"] = containers
return job_data, 0, ""
```

Note the misspelled key `template"` (a stray double quote) in the
assignment chain: the chained subscripts evaluate
`job_data["spec"]['template"']` first, which raises `KeyError` for any
ordinary manifest. -/
def check (ctx : KCtx) (jd : List (String × PyVal)) :
    Except PyErr (List (String × PyVal) × Int × String) := do
  let cv ← get_containers jd
  if cv.truthy = false then
    return (jd, 1, "Generated YAML is missing required \x27.containers\x27 list field.")
  else
    let c0 ← pyIndexZero cv
    let found ← pyGet c0 "image"
    let expected ← ctx.containerAttr
    if PyVal.beq found expected then
      return (jd, 0, "")
    else
      let c0' ← pySetKey c0 "image" expected
      let cs' := pyListSetHead cv c0'
      let jd' := writeContainers jd cs'
      let sv ← dictItem jd' "spec"
      let tv ← pyItem sv "template\""
      let s2 ← pyItem tv "spec"
      let _ ← pySetKey s2 "containers" cs'
      return (setAtPath jd' ["spec", "template\""] "spec"
        (PyVal.dict (dictSet (match s2 with | PyVal.dict es => es | _ => []) "containers" cs')),
        0, "")

/-! ### Claim C6 -/

/-- A concrete well-formed manifest: a name and one container whose image
is `img:old`. -/
def c6Manifest : List (String × PyVal) :=
  [("metadata", PyVal.dict [("name", PyVal.str "job")]),
   ("spec", PyVal.dict
     [("template", PyVal.dict
       [("spec", PyVal.dict
         [("containers", PyVal.list [PyVal.dict [("image", PyVal.str "img:old")]])])])])]

/-- A neutral context for concrete instantiations. -/
def baseCtx : KCtx :=
  { result := "", container := Option.none,
    is_optimizing := Option.none, return_to_manager := Option.none,
    scale := Option.none, sizes := [], size := 0, optimize := "",
    optimize_result := [], scaling_result := [], scaling_attempts := [],
    was_timeout := false, was_unsatisfiable := false, requires := "" }

/-- A context expecting the image `img:new`. -/
def c6Ctx : KCtx :=
  { baseCtx with container := Option.some (PyVal.str "img:new") }

/-- C6: the claim says that on an image mismatch `check` corrects the image
in place and returns `(0, "")` so submission proceeds.  In the code the
correcting branch immediately evaluates
`job_data["spec"]['template"']` — a misspelled key containing a stray
quote — so for every ordinary manifest the mismatch branch raises
`KeyError` instead of returning success, and no submission happens. -/
theorem C6_check_mismatch_raises_key_error :
    check c6Ctx c6Manifest = Except.error (PyErr.keyError "template\"") := by
  rfl

/-! ### `KubernetesJobAgent.update_manifest` (agent.py lines 538–551)

```
for key in ["decision", "reason"]:
    if key in updates:
        del updates[key]
if "manifest" in updates:
    updates = self.get_code_block(updates["manifest"], "yaml")
prompt = prompts.get_update_prompt(manifest, json.dumps(updates))
result = self.ask_gemini(prompt)
return self.get_code_block(result, "yaml")
```

`ask_gemini` and `get_code_block` live in the `GeminiAgent` base class,
which is not part of the sources; they are modelled as opaque function
parameters (`gem`, `codeBlock`).  `get_update_prompt` assembles a prompt
from the template in `kubernetes/job/prompts.py` through the missing
`Prompt` class; the assembled prompt is modelled by the parameter
`render`. -/

/-- Deleting the `decision` and `reason` keys from the patch dictionary. -/
def stripDecisionReason : List (String × PyVal) → List (String × PyVal)
  | [] => []
  | (k, v) :: rest =>
      if k = "decision" ∨ k = "reason" then stripDecisionReason rest
      else (k, v) :: stripDecisionReason rest

/-- `json.dumps` escaping of the characters of a string. -/
def jsonEscapeChars : List Char → String
  | [] => ""
  | c :: cs =>
      (if c = '"' then "\\\"" else if c = '\\' then "\\\\" else String.singleton c)
        ++ jsonEscapeChars cs

/-- Minimal `json.dumps` string quoting. -/
def jsonQuote (s : String) : String :=
  "\"" ++ jsonEscapeChars s.data ++ "\""

mutual

/-- `json.dumps` on the values we model. -/
def jsonDumpsVal : PyVal → String
  | PyVal.none => "null"
  | PyVal.str s => jsonQuote s
  | PyVal.int n => toString n
  | PyVal.bool b => if b then "true" else "false"
  | PyVal.list xs => "[" ++ jsonDumpsList xs ++ "]"
  | PyVal.dict es => "\x7b" ++ jsonDumpsEntries es ++ "\x7d"

/-- `json.dumps` of a list body. -/
def jsonDumpsList : List PyVal → String
  | [] => ""
  | [x] => jsonDumpsVal x
  | x :: xs => jsonDumpsVal x ++ ", " ++ jsonDumpsList xs

/-- `json.dumps` of a dictionary body. -/
def jsonDumpsEntries : List (String × PyVal) → String
  | [] => ""
  | [(k, v)] => jsonQuote k ++ ": " ++ jsonDumpsVal v
  | (k, v) :: es => jsonQuote k ++ ": " ++ jsonDumpsVal v ++ ", " ++ jsonDumpsEntries es

end

/-- The argument text handed to the external `get_code_block` when the
patch carries a whole manifest (the source passes the raw value; it is a
string in the oracle protocol). -/
def pyText : PyVal → String
  | PyVal.str s => s
  | v => jsonDumpsVal v

/-- The `json.dumps(updates)` payload placed into the update prompt. -/
def updatePayload (codeBlock : String → String → String)
    (updates : List (String × PyVal)) : String :=
  let u := stripDecisionReason updates
  match findEntry? u "manifest" with
  | Option.some v => jsonDumpsVal (PyVal.str (codeBlock (pyText v) "yaml"))
  | Option.none => jsonDumpsVal (PyVal.dict u)

/-- `KubernetesJobAgent.update_manifest`, with the external LLM call
(`gem`), code-block extraction (`codeBlock`) and prompt template
(`render`) as parameters. -/
def update_manifest (gem : String → String) (codeBlock : String → String → String)
    (render : String → String → String)
    (updates : List (String × PyVal)) (manifest : String) : String :=
  codeBlock (gem (render manifest (updatePayload codeBlock updates))) "yaml"

/-! ### Claim C8 -/

/-- C8 counterexample: applying the same patch twice through
`update_manifest` need not reproduce the once-patched manifest.  With a
concrete (deterministic, well-behaved) oracle that appends the requested
updates to the manifest text, the second application differs from the
first: the code delegates patch application to the oracle and enforces no
idempotence. -/
theorem C8_update_manifest_not_idempotent :
    update_manifest (fun s => s) (fun s _ => s) (fun m u => m ++ u)
        [("resources", PyVal.str "2")]
        (update_manifest (fun s => s) (fun s _ => s) (fun m u => m ++ u)
          [("resources", PyVal.str "2")] "kind: Job")
      ≠ update_manifest (fun s => s) (fun s _ => s) (fun m u => m ++ u)
        [("resources", PyVal.str "2")] "kind: Job" := by
  decide

/-- C8 (amended): `update_manifest` strips exactly the `decision` and
`reason` keys from the patch — every other entry reaches the oracle
unchanged — and returns whatever yaml block the oracle replies with; the
engine itself enforces neither idempotence nor a field whitelist. -/
theorem C8_update_manifest_strips_and_delegates :
    (∀ (gem : String → String) (codeBlock : String → String → String)
        (render : String → String → String)
        (updates : List (String × PyVal)) (manifest : String),
      update_manifest gem codeBlock render updates manifest
        = codeBlock (gem (render manifest (updatePayload codeBlock updates))) "yaml")
    ∧ (∀ (updates : List (String × PyVal)) (k : String),
      findEntry? (stripDecisionReason updates) k
        = if k = "decision" ∨ k = "reason" then Option.none
          else findEntry? updates k) := by
  constructor
  · intro gem codeBlock render updates manifest
    rfl
  · intro updates k
    induction updates with
    | nil => simp [stripDecisionReason, findEntry?]
    | cons hd tl ih =>
        obtain ⟨k', v'⟩ := hd
        by_cases hk : k' = "decision" ∨ k' = "reason"
        · rw [stripDecisionReason, if_pos hk, ih]
          by_cases hkk : k = "decision" ∨ k = "reason"
          · rw [if_pos hkk, if_pos hkk]
          · rw [if_neg hkk, if_neg hkk, findEntry?]
            have : ¬ k' = k := by
              rintro rfl; exact hkk hk
            rw [if_neg this]
        · rw [stripDecisionReason, if_neg hk, findEntry?, findEntry?]
          by_cases hek : k' = k
          · subst hek
            have hkk : ¬ (k' = "decision" ∨ k' = "reason") := hk
            rw [if_pos rfl, if_neg hkk, if_pos rfl]
          · rw [if_neg hek, if_neg hek, ih]

/-! ## `KubernetesJobAgent.finish_deploy` (agent.py lines 216–397)

The cluster (`objects.KubernetesJob` / pod objects, an external interface
not in the sources) is modelled as a `DeployEnv`: traces of the values the
successive external calls return.  `get_status` is called once per outer
poll iteration, `get_pod` is indexed by a running call counter, and
`get_info` is called at most once per outer iteration. -/

/-- Substring test on character lists (python `needle in haystack`). -/
def charsHavePre : List Char → List Char → Bool
  | [], _ => true
  | _ :: _, [] => false
  | a :: as, b :: bs => a = b && charsHavePre as bs

/-- Substring test, continued: does `needle` occur anywhere in `hay`? -/
def charsContain (needle : List Char) : List Char → Bool
  | [] => needle.isEmpty
  | c :: cs => charsHavePre needle (c :: cs) || charsContain needle cs

/-- Python `needle in hay` on strings. -/
def strContains (needle hay : String) : Bool :=
  charsContain needle.data hay.data

/-- Integer-valued status entry with python `.get(k, 0)` semantics. -/
def intEntry : List (String × Int) → String → Int
  | [], _ => 0
  | (k, v) :: rest, key => if k = key then v else intEntry rest key

/-- The result of `pod.get_info()` when a pod object exists: the fields of
the status dictionary that `finish_deploy` inspects.  `failedReason` is
`pod.has_failed_container(pod_status)`. -/
structure PodInfo where
  phase : Option String
  containerReady : List Bool
  failedReason : Option String
deriving Repr

/-- External cluster behaviour observed during one `finish_deploy` call. -/
structure DeployEnv where
  getStatus : Nat → Option (List (String × Int))
  getPod : Nat → Option String
  getInfo : Nat → Option PodInfo
  logs : String
  logsTimedOut : Bool
  finalStatus : String
  diag : Option String → String
  containerIssues : List String

/-- What `finish_deploy` does in the end: a plain `(code, message)` return,
a tail call into `optimize` or `scale`, or an uncaught python exception. -/
inductive Outcome where
  | ret (code : Int) (msg : String)
  | optimizeCall (ctx : KCtx) (log : String)
  | scaleCall (ctx : KCtx) (log : String)
  | pyerr (e : PyErr)
deriving Repr

/-- Result of `finish_deploy`: the outcome, whether `obj.delete()` was
executed (the `cleanup` helper), and the final context. -/
structure FinishResult where
  outcome : Outcome
  deleted : Bool
  ctx : KCtx
deriving Repr

/-- The inner `while not pod and tries < 10` wait-for-pod loop: up to ten
`obj.get_pod()` calls, stopping at the first truthy result.  Returns the
pod and the advanced call counter. -/
def findPod (env : DeployEnv) : Nat → Nat → Option String → Option String × Nat
  | 0, ctr, pod => (pod, ctr)
  | fuel + 1, ctr, pod =>
      match pod with
      | Option.some p => (Option.some p, ctr)
      | Option.none => findPod env fuel (ctr + 1) (env.getPod ctr)

/-- One iteration either keeps polling, breaks out to the log-streaming
tail, or returns from `finish_deploy` altogether. -/
inductive StepRes where
  | next (pod : Option String) (ctr : Nat)
  | toLogs (pod : Option String) (ctr : Nat)
  | stop (r : FinishResult)
deriving Repr

/-- One iteration of the `for i in range(30)` poll loop of
`finish_deploy`:

1. read job status; `succeeded > 0` breaks to the success tail, `failed > 0`
   collects diagnostics, deletes the workload and returns code 1
   (a `None` status raises `AttributeError` on `status.get("failed", 0)`);
2. otherwise resolve a pod (bounded sub-retries);
3. with pod info: `Running` with all containers ready and `Succeeded`
   break to the success tail; a failed-container reason returns fatally —
   except an `OOMKilled` reason while `context.get("is_optimizing")` is
   truthy, which deletes the workload and tail-calls `optimize` with the
   synthetic log `The last attempt was OOMKilled.`. -/
def pollStep (env : DeployEnv) (ctx : KCtx) (i : Nat) (pod0 : Option String) (ctr0 : Nat) :
    StepRes :=
  match env.getStatus i with
  | Option.none => StepRes.stop ⟨Outcome.pyerr (PyErr.attrError "get"), false, ctx⟩
  | Option.some st =>
      if !st.isEmpty && intEntry st "succeeded" > 0 then
        StepRes.toLogs pod0 ctr0
      else if intEntry st "failed" > 0 then
        StepRes.stop ⟨Outcome.ret 1
          ("Job entered failed state. This usually happens after repeated pod failures.\n\n"
            ++ env.diag pod0), true, ctx⟩
      else
        match findPod env 10 ctr0 pod0 with
        | (Option.some p, ctr) =>
            (match env.getInfo i with
              | Option.some info =>
                  if info.phase = Option.some "Running" && info.containerReady.all id then
                    StepRes.toLogs (Option.some p) ctr
                  else if info.phase = Option.some "Succeeded" then
                    StepRes.toLogs (Option.some p) ctr
                  else
                    (match info.failedReason with
                      | Option.some reason =>
                          if reason = "OOMKilled"
                              && (match ctx.is_optimizing with
                                  | Option.some b => b
                                  | Option.none => false) then
                            StepRes.stop ⟨Outcome.optimizeCall ctx
                              "The last attempt was OOMKilled.", true, ctx⟩
                          else
                            StepRes.stop ⟨Outcome.ret 1
                              ("Pod \x27" ++ p ++ "\x27 is stuck in a fatal state: "
                                ++ reason ++ "\n\n" ++ env.diag (Option.some p)),
                              true, ctx⟩
                      | Option.none => StepRes.next (Option.some p) ctr)
              | Option.none => StepRes.next Option.none ctr)
        | (Option.none, ctr) => StepRes.next Option.none ctr

/-- `prompts.failure_message % diagnostics`. -/
def failureMessage (diagnostics : String) : String :=
  "Job failed during execution.\n" ++ diagnostics

/-- `prompts.lost_message % full_logs`. -/
def lostMessage (fullLogs : String) : String :=
  "Your last deploy was lost, which is not a failure. Possibly consider other strategies for another attempt.\n"
    ++ fullLogs ++ "\n"

/-- `prompts.lost_optimization_message % full_logs`. -/
def lostOptimizationMessage (fullLogs : String) : String :=
  "Your last optimization attempt result was lost, which is not a failure. You MUST discard this attempt and you MUST retry. You MAY consider other strategies for another attempt.\n"
    ++ fullLogs ++ "\n"

/-- The tail of `finish_deploy` after the poll loop breaks (lines
327–397): `pod.wait_for_ready()` — which raises `AttributeError` when no
pod was ever resolved — then log collection, the `was_timeout` /
`was_unsatisfiable` context updates, workload cleanup, and the dispatch on
the final pod status (`Succeeded` / container issues / `Lost` / other). -/
def postLoop (env : DeployEnv) (ctx : KCtx) (pod : Option String) : FinishResult :=
  match pod with
  | Option.none => ⟨Outcome.pyerr (PyErr.attrError "wait_for_ready"), false, ctx⟩
  | Option.some p =>
      let fullLogs := env.logs
      let ctx1 : KCtx := { ctx with was_timeout := env.logsTimedOut }
      let finalStatus := env.finalStatus
      let ctx2 : KCtx := { ctx1 with was_unsatisfiable := strContains "unsatisfiable" fullLogs }
      let toOptimizing : Bool := match ctx2.is_optimizing with
        | Option.some true => true
        | _ => false
      let toScaling : Bool := ctx2.scale.isSome && !toOptimizing
      if finalStatus = "Succeeded" then
        if toOptimizing then ⟨Outcome.optimizeCall ctx2 fullLogs, true, ctx2⟩
        else if toScaling then ⟨Outcome.scaleCall ctx2 fullLogs, true, ctx2⟩
        else ⟨Outcome.ret 0 fullLogs, true, ctx2⟩
      else if env.containerIssues.contains finalStatus then
        ⟨Outcome.ret 1 ("Container failed with status: " ++ finalStatus), true, ctx2⟩
      else if finalStatus = "Lost" then
        if toOptimizing then
          ⟨Outcome.optimizeCall ctx2 (lostOptimizationMessage fullLogs), true, ctx2⟩
        else ⟨Outcome.ret 1 (lostMessage fullLogs), true, ctx2⟩
      else if (toOptimizing && ctx2.was_timeout) || (toOptimizing && ctx2.was_unsatisfiable) then
        ⟨Outcome.optimizeCall ctx2 fullLogs, true, ctx2⟩
      else ⟨Outcome.ret 1 (failureMessage (env.diag (Option.some p))), true, ctx2⟩

/-- The `for i in range(30)` poll loop with its `else` (timeout) clause. -/
def deployLoop (env : DeployEnv) (ctx : KCtx) : Nat → Nat → Option String → Nat → FinishResult
  | 0, _, pod, _ =>
      ⟨Outcome.ret 1
        ("Timeout: Job did not reach a stable running or completed state within the time limit.\n\n"
          ++ env.diag pod), true, ctx⟩
  | fuel + 1, i, pod, ctr =>
      match pollStep env ctx i pod ctr with
      | StepRes.stop r => r
      | StepRes.toLogs pod' _ => postLoop env ctx pod'
      | StepRes.next pod' ctr' => deployLoop env ctx fuel (i + 1) pod' ctr'

/-- `KubernetesJobAgent.finish_deploy`: thirty poll iterations starting
with no pod resolved. -/
def finish_deploy (env : DeployEnv) (ctx : KCtx) : FinishResult :=
  deployLoop env ctx 30 0 Option.none 0

/-! ### Claim C2 -/

/-- C2: in any poll iteration that reaches the pod inspection (the job
status is neither succeeded nor failed), if the resolved pod's
failed-container reason is `OOMKilled` while `is_optimizing` is truthy,
the loop does not return the fatal-state result: it deletes the workload
and tail-calls `optimize` with the synthetic log
`The last attempt was OOMKilled.` — in particular the outcome is no plain
`(code, message)` failure return at all. -/
theorem C2_oom_while_optimizing_delegates
    (env : DeployEnv) (ctx : KCtx) (fuel i ctr ctrAfter : Nat) (pod : Option String)
    (st : List (String × Int)) (p : String) (info : PodInfo)
    (hst : env.getStatus i = Option.some st)
    (hnotsucc : (!st.isEmpty && decide (intEntry st "succeeded" > 0)) = false)
    (hnotfail : ¬ intEntry st "failed" > 0)
    (hpod : findPod env 10 ctr pod = (Option.some p, ctrAfter))
    (hinfo : env.getInfo i = Option.some info)
    (hnotrun : (decide (info.phase = Option.some "Running") && info.containerReady.all id)
        = false)
    (hnotdone : info.phase ≠ Option.some "Succeeded")
    (hreason : info.failedReason = Option.some "OOMKilled")
    (hopt : ctx.is_optimizing = Option.some true) :
    deployLoop env ctx (fuel + 1) i pod ctr
      = ⟨Outcome.optimizeCall ctx "The last attempt was OOMKilled.", true, ctx⟩
    ∧ ∀ code msg,
        (deployLoop env ctx (fuel + 1) i pod ctr).outcome ≠ Outcome.ret code msg := by
  have h1 : deployLoop env ctx (fuel + 1) i pod ctr
      = ⟨Outcome.optimizeCall ctx "The last attempt was OOMKilled.", true, ctx⟩ := by
    simp [deployLoop, pollStep, hst, hnotsucc, hnotfail, hpod, hinfo, hnotrun, hnotdone,
      hreason, hopt]
  refine ⟨h1, ?_⟩
  intro code msg
  rw [h1]
  simp

/-- Cluster behaviour witnessing C2: an active job whose pod is pending
with an `OOMKilled` container. -/
def c2Env : DeployEnv :=
  { getStatus := fun _ => Option.some [("active", 1)],
    getPod := fun _ => Option.some "pod-0",
    getInfo := fun _ => Option.some ⟨Option.some "Pending", [], Option.some "OOMKilled"⟩,
    logs := "", logsTimedOut := false, finalStatus := "", diag := fun _ => "d",
    containerIssues := [] }

/-- An optimizing context. -/
def c2Ctx : KCtx := { baseCtx with is_optimizing := Option.some true }

/-- C2 witness: the hypotheses of `C2_oom_while_optimizing_delegates` hold
at a concrete environment and the poll loop delegates to `optimize`. -/
theorem C2_oom_while_optimizing_delegates_witness :
    deployLoop c2Env c2Ctx 30 0 Option.none 0
      = ⟨Outcome.optimizeCall c2Ctx "The last attempt was OOMKilled.", true, c2Ctx⟩ :=
  (C2_oom_while_optimizing_delegates c2Env c2Ctx 29 0 0 1 Option.none
    [("active", 1)] "pod-0" ⟨Option.some "Pending", [], Option.some "OOMKilled"⟩
    rfl rfl (by decide) rfl rfl rfl (by decide) rfl rfl).1

/-! ### Claim C3 -/

/-- Cluster behaviour for C3: the very first job-status poll reports
`succeeded = 1`, before any pod was resolved. -/
def c3Env : DeployEnv :=
  { getStatus := fun _ => Option.some [("succeeded", 1)],
    getPod := fun _ => Option.none,
    getInfo := fun _ => Option.none,
    logs := "log", logsTimedOut := false, finalStatus := "Succeeded",
    diag := fun _ => "d", containerIssues := [] }

/-- C3: the claim (spec scenario A) says a first-poll `succeeded > 0`
makes `finish_deploy` return `(0, logs)`.  The code breaks out of the poll
loop with `pod` still `None` and immediately evaluates
`pod.wait_for_ready()`, raising `AttributeError` — no `(0, logs)` return
is reached, and the workload is not even deleted. -/
theorem C3_first_poll_success_dereferences_missing_pod :
    finish_deploy c3Env baseCtx
      = ⟨Outcome.pyerr (PyErr.attrError "wait_for_ready"), false, baseCtx⟩ := by
  rfl

/-! ## `KubernetesJobAgent.optimize` (agent.py lines 399–435)

```
context.is_optimizing = True
context.return_to_manager = False
resources = self.cluster_resources()
context.requires = prompts.get_optimize_prompt(context, resources)
context = self.optimize_agent.run(context, full_logs)
decision = context.optimize_result["decision"]
if decision == "RETRY":
    job.delete()
    context.result = self.update_manifest(context.optimize_result, job_crd)
    return self.deploy(context)
self.optimize_agent.metadata["foms"] = self.optimize_agent.foms
self.metadata["assets"]["optimize"] = self.optimize_agent.metadata
context.is_optimizing = False
return 0, full_logs
```

`cluster_resources`, the prompt builder, the missing `OptimizationAgent`
and the recursive `self.deploy` call are opaque parameters.  Note that
`update_manifest` deletes the `decision`/`reason` keys from
`context.optimize_result` *in place*, so the context forwarded to `deploy`
carries the stripped dictionary. -/

/-- The external collaborators of one `optimize` call. -/
structure OptimizeEnv where
  clusterResources : String
  optimizePrompt : KCtx → String → String
  agentRun : KCtx → String → KCtx
  deployFn : KCtx → Int × String × KCtx
  gem : String → String
  codeBlock : String → String → String
  render : String → String → String

/-- Result of `optimize`: exit code, message, final context, whether
`job.delete()` ran, and whether the figure-of-merit metadata was saved. -/
structure OptResult where
  code : Int
  log : String
  ctx : KCtx
  jobDeleted : Bool
  fomsRecorded : Bool
deriving Repr

/-- The context as `optimize` prepares it before consulting the oracle:
`is_optimizing := True`, `return_to_manager := False`, and the optimize
prompt stored under `requires`. -/
def optimizeEntryCtx (env : OptimizeEnv) (ctx0 : KCtx) : KCtx :=
  let ctx1 := { ctx0 with is_optimizing := Option.some true,
                          return_to_manager := Option.some false }
  { ctx1 with requires := env.optimizePrompt ctx1 env.clusterResources }

/-- The context returned by `self.optimize_agent.run(context, full_logs)`. -/
def optimizeAgentCtx (env : OptimizeEnv) (ctx0 : KCtx) (full_logs : String) : KCtx :=
  env.agentRun (optimizeEntryCtx env ctx0) full_logs

/-- `KubernetesJobAgent.optimize`. -/
def optimize (env : OptimizeEnv) (ctx0 : KCtx) (job_crd : String) (full_logs : String) :
    Except PyErr OptResult :=
  let ctx := optimizeAgentCtx env ctx0 full_logs
  match findEntry? ctx.optimize_result "decision" with
  | Option.none => Except.error (PyErr.keyError "decision")
  | Option.some decision =>
      if PyVal.beq decision (PyVal.str "RETRY") then
        let ctxR := { ctx with
          result := update_manifest env.gem env.codeBlock env.render ctx.optimize_result job_crd,
          optimize_result := stripDecisionReason ctx.optimize_result }
        match env.deployFn ctxR with
        | (code, log, ctxFinal) => Except.ok ⟨code, log, ctxFinal, true, false⟩
      else
        Except.ok ⟨0, full_logs, { ctx with is_optimizing := Option.some false }, false, true⟩

/-! ### Claim C10 -/

/-- C10: the workload is deleted and resubmitted exactly when the oracle's
decision equals `RETRY`; for every other decision value — `STOP` or any
unrecognized verdict alike — `optimize` records the figure-of-merit
metadata, clears `is_optimizing`, and returns `(0, full_logs)`. -/
theorem C10_optimize_retry_is_the_only_redeploy
    (env : OptimizeEnv) (ctx0 : KCtx) (crd logs : String) (d : PyVal)
    (hd : findEntry? (optimizeAgentCtx env ctx0 logs).optimize_result "decision"
        = Option.some d) :
    (PyVal.beq d (PyVal.str "RETRY") = false →
      optimize env ctx0 crd logs
        = Except.ok ⟨0, logs,
            { optimizeAgentCtx env ctx0 logs with is_optimizing := Option.some false },
            false, true⟩)
    ∧ (PyVal.beq d (PyVal.str "RETRY") = true →
      ∃ r : OptResult, optimize env ctx0 crd logs = Except.ok r
        ∧ r.jobDeleted = true ∧ r.fomsRecorded = false
        ∧ (r.code, r.log, r.ctx)
            = env.deployFn
                { optimizeAgentCtx env ctx0 logs with
                  result := update_manifest env.gem env.codeBlock env.render
                    (optimizeAgentCtx env ctx0 logs).optimize_result crd,
                  optimize_result :=
                    stripDecisionReason (optimizeAgentCtx env ctx0 logs).optimize_result }) := by
  constructor
  · intro hnr
    simp [optimize, hd, hnr]
  · intro hr
    rcases hdf : env.deployFn
        { optimizeAgentCtx env ctx0 logs with
          result := update_manifest env.gem env.codeBlock env.render
            (optimizeAgentCtx env ctx0 logs).optimize_result crd,
          optimize_result :=
            stripDecisionReason (optimizeAgentCtx env ctx0 logs).optimize_result }
      with ⟨code, log2, ctxF⟩
    refine ⟨⟨code, log2, ctxF, true, false⟩, ?_, rfl, rfl, ?_⟩
    · simp [optimize, hd, hr, hdf]
    · rw [← hdf]

/-- Oracle behaviour for the C10 witness: the optimization agent replies
with the unknown verdict `MAYBE`. -/
def c10Env : OptimizeEnv :=
  { clusterResources := "r",
    optimizePrompt := fun _ _ => "p",
    agentRun := fun c _ => { c with optimize_result := [("decision", PyVal.str "MAYBE")] },
    deployFn := fun c => (0, "", c),
    gem := fun s => s, codeBlock := fun s _ => s, render := fun m u => m ++ u }

/-- C10 witness: the unknown verdict `MAYBE` is treated as successful
termination `(0, logs)` with the optimizing flag cleared. -/
theorem C10_optimize_retry_is_the_only_redeploy_witness :
    optimize c10Env baseCtx "m" "logs"
      = Except.ok ⟨0, "logs",
          { optimizeAgentCtx c10Env baseCtx "logs" with is_optimizing := Option.some false },
          false, true⟩ :=
  (C10_optimize_retry_is_the_only_redeploy c10Env baseCtx "m" "logs"
    (PyVal.str "MAYBE") rfl).1 rfl

/-! ### Claim C5 -/

/-- C5 counterexample: the claim says that once `optimize` is entered the
`is_optimizing` flag stays `True` for the remainder of the run.  With an
oracle that answers `STOP`, the very same `optimize` call sets the flag
back to `False` before returning (agent.py line 434). -/
theorem C5_is_optimizing_cleared_on_stop :
    (optimize
      { clusterResources := "r", optimizePrompt := fun _ _ => "p",
        agentRun := fun c _ => { c with optimize_result := [("decision", PyVal.str "STOP")] },
        deployFn := fun c => (0, "", c),
        gem := fun s => s, codeBlock := fun s _ => s, render := fun m u => m ++ u }
      baseCtx "m" "logs").toOption.map (fun r => r.ctx.is_optimizing)
      = Option.some (Option.some false) := by
  rfl

/-- C5 (amended): `optimize` sets `is_optimizing` to `True` on entry — the
context handed to the decision oracle carries the flag — and the flag
stays set while the verdict is `RETRY`; but when the optimization loop
ends with any non-`RETRY` verdict, `optimize` itself clears the flag to
`False` before returning (and `scale` likewise clears it when an inner
optimization attempt fails). -/
theorem C5_is_optimizing_set_on_entry_cleared_on_exit
    (env : OptimizeEnv) (ctx0 : KCtx) (crd logs : String) (d : PyVal)
    (hd : findEntry? (optimizeAgentCtx env ctx0 logs).optimize_result "decision"
        = Option.some d)
    (hnr : PyVal.beq d (PyVal.str "RETRY") = false) :
    (optimizeEntryCtx env ctx0).is_optimizing = Option.some true
    ∧ ∃ r : OptResult, optimize env ctx0 crd logs = Except.ok r
        ∧ r.ctx.is_optimizing = Option.some false := by
  constructor
  · rfl
  · refine ⟨⟨0, logs, { optimizeAgentCtx env ctx0 logs with is_optimizing := Option.some false },
      false, true⟩, ?_, rfl⟩
    simp [optimize, hd, hnr]

/-- C5 witness: the amended statement at the concrete `STOP` oracle. -/
theorem C5_is_optimizing_set_on_entry_cleared_on_exit_witness :
    (optimizeEntryCtx c10Env baseCtx).is_optimizing = Option.some true
    ∧ ∃ r : OptResult, optimize c10Env baseCtx "m" "logs" = Except.ok r
        ∧ r.ctx.is_optimizing = Option.some false :=
  C5_is_optimizing_set_on_entry_cleared_on_exit c10Env baseCtx "m" "logs"
    (PyVal.str "MAYBE") rfl rfl

/-! ## `KubernetesJobAgent.scale` (agent.py lines 437–514)

The sweep pops sizes off `context.sizes`, runs the optimization loop at
each size, asks the scaling agent whether to proceed, and restores state
on exit.  The recursive `self.optimize` call and the external
`self.scaling_agent.run` are opaque parameters; `self.metadata["assets"]`
is modelled by the two `Option` fields of `ScaleSt`. -/

/-- External collaborators of `scale`: the optimization loop
(`self.optimize(context, job, context.result, full_logs)`, returning the
exit code, the log and the mutated context) and the scaling agent. -/
structure ScaleEnv where
  optimizeFn : KCtx → String → Int × String × KCtx
  scalingRun : KCtx → KCtx

/-- The state `scale` works on: the context plus the slices of
`self.metadata["assets"]` it touches. -/
structure ScaleSt where
  ctx : KCtx
  assetsSizes : Option (List Int)
  assetsScaling : Option (List (Int × List (String × PyVal)))
deriving Repr

/-- Result of `scale`. -/
inductive ScaleRes where
  | out (code : Int) (log : String) (st : ScaleSt)
  | err (e : PyErr)
  | fuelOut
deriving Repr

/-- `d[k] = v` for an integer-keyed python dict. -/
def intDictSet : List (Int × PyVal) → Int → PyVal → List (Int × PyVal)
  | [], k, v => [(k, v)]
  | (k', v') :: rest, k, v =>
      if k' = k then (k, v) :: rest else (k', v') :: intDictSet rest k v

/-- `specs[size] = scaling_result`. -/
def specSet :
    List (Int × List (String × PyVal)) → Int → List (String × PyVal) →
      List (Int × List (String × PyVal))
  | [], k, v => [(k, v)]
  | (k', v') :: rest, k, v =>
      if k' = k then (k, v) :: rest else (k', v') :: specSet rest k v

/-- One pass of the `while decision != "STOP"` body of `scale`. -/
inductive IterRes where
  | failOut (code : Int) (log : String) (st : ScaleSt)
  | stopOut (code : Int) (log : String) (st : ScaleSt)
  | nextIter (specs : List (Int × List (String × PyVal))) (st : ScaleSt)
  | errOut (e : PyErr)

/-- The optimize prompt rebuilt for the current size:
`context.optimize = "You MUST optimize for ... nodes." + extra + holder`. -/
def scalePromptCtx (holder extra : String) (c : KCtx) : KCtx :=
  { c with optimize := "You MUST optimize for " ++ toString c.size ++ " nodes.\n"
      ++ extra ++ "\n" ++ holder }

/-- After a successful optimization pass: record the best figure of merit
under the current size and restore the saved optimize prompt. -/
def scaleRecordCtx (holder : String) (ctxB : KCtx) : KCtx :=
  { ctxB with
    scaling_attempts := intDictSet ctxB.scaling_attempts ctxB.size
      (dictGet ctxB.optimize_result "best_fom"),
    optimize := holder }

/-- One iteration of the scaling sweep (agent.py lines 459–513):

1. rebuild the optimize prompt for the current size;
2. run the optimization loop; a nonzero exit code clears `is_optimizing`,
   pushes the size under evaluation back to the front of `context.sizes`,
   restores the optimize prompt and returns the failure upward;
3. otherwise record the best figure of merit, consult the scaling agent,
   and either advance to the next size (`PROCEED` with sizes left,
   popping the head of the queue), stop (`STOP`, or `PROCEED` with no
   sizes left — restoring `context.sizes` from the saved copy), or, on
   any other verdict, loop again at the same size. -/
def scaleIter (env : ScaleEnv) (full_logs holder extra : String)
    (specs : List (Int × List (String × PyVal))) (st : ScaleSt) : IterRes :=
  match env.optimizeFn (scalePromptCtx holder extra st.ctx) full_logs with
  | (code, log, ctxB) =>
      if code ≠ 0 then
        IterRes.failOut code log
          { st with ctx := { ctxB with is_optimizing := Option.some false,
                                       sizes := ctxB.size :: ctxB.sizes,
                                       optimize := holder } }
      else
        match env.scalingRun (scaleRecordCtx holder ctxB) with
        | ctxE =>
            let specs' := specSet specs ctxE.size ctxE.scaling_result
            match findEntry? ctxE.scaling_result "decision" with
            | Option.none => IterRes.errOut (PyErr.keyError "decision")
            | Option.some dv =>
                if PyVal.beq dv (PyVal.str "PROCEED") && !ctxE.sizes.isEmpty then
                  IterRes.nextIter specs'
                    { st with ctx := { ctxE with size := ctxE.sizes.headI,
                                                 sizes := ctxE.sizes.tail } }
                else if PyVal.beq dv (PyVal.str "PROCEED")
                    || PyVal.beq dv (PyVal.str "STOP") then
                  (match st.assetsSizes with
                    | Option.some szs =>
                        IterRes.stopOut 0 log
                          { ctx := { ctxE with sizes := szs },
                            assetsSizes := Option.none,
                            assetsScaling := Option.some specs' }
                    | Option.none => IterRes.errOut (PyErr.keyError "sizes"))
                else IterRes.nextIter specs' { st with ctx := ctxE }

/-- The `while decision != "STOP"` loop of `scale` (fuel-bounded: the
source has no intrinsic bound when the scaling agent keeps answering with
an unrecognized verdict). -/
def scaleLoop (env : ScaleEnv) (full_logs holder : String) :
    Nat → String → List (Int × List (String × PyVal)) → ScaleSt → ScaleRes
  | 0, _, _, _ => ScaleRes.fuelOut
  | fuel + 1, extra, specs, st =>
      match scaleIter env full_logs holder extra specs st with
      | IterRes.failOut code log st' => ScaleRes.out code log st'
      | IterRes.stopOut code log st' => ScaleRes.out code log st'
      | IterRes.errOut e => ScaleRes.err e
      | IterRes.nextIter specs' st' => scaleLoop env full_logs holder fuel "" specs' st'

/-- First-entry bookkeeping of `scale`: cache a copy of `context.sizes`
in the metadata, reset `context.scaling_attempts` and set the
first-size note. -/
def scaleEntry (st0 : ScaleSt) : ScaleSt × String :=
  match st0.assetsSizes with
  | Option.none =>
      ({ st0 with assetsSizes := Option.some st0.ctx.sizes,
                  ctx := { st0.ctx with scaling_attempts := [] } },
       "This is the first size of a scaling study.")
  | Option.some _ => (st0, "")

/-- `KubernetesJobAgent.scale`: cache the original sizes in the metadata
on first entry, return immediately when no sizes remain, pop the first
size and enter the sweep (`holder` is the saved optimize prompt). -/
def scale (env : ScaleEnv) (fuel : Nat) (st0 : ScaleSt) (full_logs : String) : ScaleRes :=
  match (scaleEntry st0).1.ctx.sizes with
  | [] => ScaleRes.out 0 full_logs (scaleEntry st0).1
  | s :: rest =>
      scaleLoop env full_logs (scaleEntry st0).1.ctx.optimize fuel (scaleEntry st0).2 []
        { (scaleEntry st0).1 with
          ctx := { (scaleEntry st0).1.ctx with size := s, sizes := rest } }

/-- A failure exit of one sweep iteration always carries the size under
evaluation at the head of the remaining-sizes queue. -/
theorem scaleIter_fail_head (env : ScaleEnv) (full_logs holder extra : String)
    (specs : List (Int × List (String × PyVal))) (st st' : ScaleSt)
    (code : Int) (log : String)
    (h : scaleIter env full_logs holder extra specs st = IterRes.failOut code log st') :
    st'.ctx.sizes = st'.ctx.size :: st'.ctx.sizes.tail := by
  obtain ⟨sctx, sA, sS⟩ := st
  unfold scaleIter at h
  rcases hopt : env.optimizeFn (scalePromptCtx holder extra sctx) full_logs with ⟨c, l, ctxB⟩
  rw [hopt] at h
  dsimp only at h
  by_cases hc0 : c = 0
  · rw [if_neg (fun hne => hne hc0)] at h
    rcases hfind : findEntry?
        (env.scalingRun (scaleRecordCtx holder ctxB)).scaling_result "decision" with _ | dv <;>
      rw [hfind] at h <;> dsimp only at h
    · cases h
    · by_cases h1 : (PyVal.beq dv (PyVal.str "PROCEED")
          && !(env.scalingRun (scaleRecordCtx holder ctxB)).sizes.isEmpty) = true
      · rw [if_pos h1] at h
        cases h
      · rw [if_neg h1] at h
        by_cases h2 : (PyVal.beq dv (PyVal.str "PROCEED")
            || PyVal.beq dv (PyVal.str "STOP")) = true
        · rw [if_pos h2] at h
          rcases sA with _ | szs
          · cases h
          · cases h
        · rw [if_neg h2] at h
          cases h
  · rw [if_pos hc0] at h
    injection h with e1 e2 e3
    subst e3
    rfl

/-- A stop exit of one sweep iteration always carries exit code `0`. -/
theorem scaleIter_stop_code (env : ScaleEnv) (full_logs holder extra : String)
    (specs : List (Int × List (String × PyVal))) (st st' : ScaleSt)
    (code : Int) (log : String)
    (h : scaleIter env full_logs holder extra specs st = IterRes.stopOut code log st') :
    code = 0 := by
  obtain ⟨sctx, sA, sS⟩ := st
  unfold scaleIter at h
  rcases hopt : env.optimizeFn (scalePromptCtx holder extra sctx) full_logs with ⟨c, l, ctxB⟩
  rw [hopt] at h
  dsimp only at h
  by_cases hc0 : c = 0
  · rw [if_neg (fun hne => hne hc0)] at h
    rcases hfind : findEntry?
        (env.scalingRun (scaleRecordCtx holder ctxB)).scaling_result "decision" with _ | dv <;>
      rw [hfind] at h <;> dsimp only at h
    · cases h
    · by_cases h1 : (PyVal.beq dv (PyVal.str "PROCEED")
          && !(env.scalingRun (scaleRecordCtx holder ctxB)).sizes.isEmpty) = true
      · rw [if_pos h1] at h
        cases h
      · rw [if_neg h1] at h
        by_cases h2 : (PyVal.beq dv (PyVal.str "PROCEED")
            || PyVal.beq dv (PyVal.str "STOP")) = true
        · rw [if_pos h2] at h
          rcases sA with _ | szs
          · cases h
          · injection h with e1 e2 e3
            exact e1.symm
        · rw [if_neg h2] at h
          cases h
  · rw [if_pos hc0] at h
    cases h

/-- The loop-level version of the C4 invariant. -/
theorem scaleLoop_fail_head (env : ScaleEnv) (full_logs holder : String) :
    ∀ (fuel : Nat) (extra : String) (specs : List (Int × List (String × PyVal)))
      (st st' : ScaleSt) (code : Int) (log : String),
      scaleLoop env full_logs holder fuel extra specs st = ScaleRes.out code log st' →
      code ≠ 0 →
      st'.ctx.sizes = st'.ctx.size :: st'.ctx.sizes.tail := by
  intro fuel
  induction fuel with
  | zero => intro extra specs st st' code log h hc; exact absurd h (by simp [scaleLoop])
  | succ n ih =>
      intro extra specs st st' code log h hc
      rw [scaleLoop] at h
      rcases hit : scaleIter env full_logs holder extra specs st with
        ⟨c, l, s⟩ | ⟨c, l, s⟩ | ⟨specs2, s⟩ | e <;> rw [hit] at h
      · cases h
        exact scaleIter_fail_head env full_logs holder extra specs st _ _ _ hit
      · cases h
        exact absurd (scaleIter_stop_code env full_logs holder extra specs st _ _ _ hit) hc
      · exact ih "" specs2 s st' code log h hc
      · exact absurd h (by simp)

/-! ### Claim C4 -/

/-- C4: whenever `scale` returns with a nonzero exit code — which only the
failure of an inner optimization attempt produces — the size that was
under evaluation (`context.size`) sits at the front of the
remaining-sizes queue `context.sizes`: no size is lost mid-sweep. -/
theorem C4_scale_failure_restores_size (env : ScaleEnv) (fuel : Nat) (st0 : ScaleSt)
    (full_logs : String) (code : Int) (log : String) (st' : ScaleSt)
    (h : scale env fuel st0 full_logs = ScaleRes.out code log st')
    (hc : code ≠ 0) :
    st'.ctx.sizes = st'.ctx.size :: st'.ctx.sizes.tail := by
  unfold scale at h
  rcases hs : (scaleEntry st0).1.ctx.sizes with _ | ⟨s, rest⟩ <;> rw [hs] at h
  · cases h
    exact absurd rfl hc
  · exact scaleLoop_fail_head env full_logs _ fuel (scaleEntry st0).2 []
      { (scaleEntry st0).1 with
        ctx := { (scaleEntry st0).1.ctx with size := s, sizes := rest } } st' code log h hc

/-- Environment for the C4 witness: the inner optimization attempt fails
with exit code 1. -/
def c4Env : ScaleEnv :=
  { optimizeFn := fun c _ => (1, "boom", c), scalingRun := fun c => c }

/-- Initial state for the C4 witness: a fresh scaling study over sizes
`[4, 8]`. -/
def c4St : ScaleSt :=
  { ctx := { baseCtx with sizes := [4, 8], optimize := "opt" },
    assetsSizes := Option.none, assetsScaling := Option.none }

/-- The state in which the C4 witness run returns. -/
def c4StOut : ScaleSt :=
  { ctx := { baseCtx with sizes := [4, 8], size := 4, optimize := "opt",
                          is_optimizing := Option.some false },
    assetsSizes := Option.some [4, 8], assetsScaling := Option.none }

/-- C4 witness: at the concrete failing sweep, the failure is returned
upward and the evaluated size `4` heads the remaining queue `[4, 8]`. -/
theorem C4_scale_failure_restores_size_witness :
    c4StOut.ctx.sizes = c4StOut.ctx.size :: c4StOut.ctx.sizes.tail :=
  C4_scale_failure_restores_size c4Env 5 c4St "logs" 1 "boom" c4StOut rfl
    (by decide)

/-! ## `ScalingAgent.run` (scaling/agent.py lines 110–167) — the
reformulation loop

Each oracle reply is classified by what the parsing code observes:
either no JSON code block can be extracted (`json.loads` fails inside the
`while True` loop, which appends a corrective instruction to the prompt
and asks again), or a parsed dictionary.  A parsed reply missing the
`decision`/`reason` fields, or carrying a verdict outside
`STOP`/`PROCEED`, re-invokes `run` with a corrective instruction; a
`STOP` verdict is confirmed with the interactive user (`yes` accepts,
`no`/`feedback` re-invoke `run`; the interactive size re-selection of
`update_scaling_size` does not affect the retry structure and is not
modelled).  Every retry consumes the next oracle reply; `starved` means
the reply trace ran out while the agent was still re-prompting. -/

/-- Classification of one oracle reply to the scaling agent. -/
inductive SResp where
  | noJson
  | json (fields : List (String × PyVal))
deriving Repr

/-- An interactive `confirm_stop` answer. -/
inductive UAns where
  | yes
  | no
  | feedback
deriving Repr, DecidableEq

/-- How a `ScalingAgent.run` call ends: with a validated result, or not
at all within the given reply trace (the code has no failure exit). -/
inductive SRun where
  | ok (result : List (String × PyVal))
  | starved
deriving Repr

/-- The retry structure of `ScalingAgent.run` over a trace of oracle
replies and a trace of user answers. -/
def scalingAgentRun : List SResp → List UAns → SRun
  | [], _ => SRun.starved
  | SResp.noJson :: rest, us => scalingAgentRun rest us
  | SResp.json fields :: rest, us =>
      if (findEntry? fields "decision").isNone || (findEntry? fields "reason").isNone then
        scalingAgentRun rest us
      else
        match findEntry? fields "decision" with
        | Option.none => scalingAgentRun rest us
        | Option.some dv =>
            if !(PyVal.beq dv (PyVal.str "STOP") || PyVal.beq dv (PyVal.str "PROCEED")) then
              scalingAgentRun rest us
            else if PyVal.beq dv (PyVal.str "STOP") then
              (match us with
                | [] => SRun.starved
                | UAns.yes :: _ => SRun.ok fields
                | UAns.no :: us' => scalingAgentRun rest us'
                | UAns.feedback :: us' => scalingAgentRun rest us')
            else SRun.ok fields

/-! ### Claim C7 -/

/-- C7 counterexample: the claim says a malformed oracle response is
retried "at most a small fixed number of times, after which the
interaction is treated as a fatal step error".  After fifty consecutive
unparsable responses the agent is still re-prompting — no fatal step
error has been produced (the result type of the loop has no error case at
all), so no small fixed bound exists. -/
theorem C7_fifty_malformed_replies_still_retrying :
    scalingAgentRun (List.replicate 50 SResp.noJson) [] = SRun.starved := by
  rfl

/-- C7 (amended): the reformulation loop is unbounded: every malformed
response re-prompts with a corrective instruction and consumes the next
reply, for any number of consecutive malformed replies; the loop
terminates only when the oracle returns well-formed JSON with a
`STOP`/`PROCEED` verdict, and the code has no fatal-step-error exit. -/
theorem C7_malformed_replies_retried_without_bound :
    ∀ (k : Nat) (us : List UAns),
      scalingAgentRun (List.replicate k SResp.noJson) us = SRun.starved := by
  intro k
  induction k with
  | zero => intro us; rfl
  | succ n ih =>
      intro us
      simpa [List.replicate, scalingAgentRun] using ih us

end Fractale
